import Mathlib

/-!
Shallow embedding of `src/price_alert_api.py` (Amazon Price Alert API).

The program keeps a table `price_alerts` in PostgreSQL; we model it as a
`Store` holding a list of rows plus the next SERIAL id.  Python floats are
modelled as rationals (`Rat`); SQL `NOW()` / timestamps as a `Nat` parameter.
The SMTP transport behind `EmailNotifier.send_email` is modelled as a
function that may fail (`Except`); `send_email` catches the failure and
returns a `Bool`, exactly as the `try/except` in the source does.  Each
HTTP endpoint becomes a pure function from the store (and its inputs) to
the new store and response; raising `HTTPException` before any write is
modelled by an `Except.error` result carrying no store, since the
transaction is then never committed.
-/

namespace PriceAlertApi

/-- Request body of `POST /alerts/` (pydantic model `PriceAlert`,
`price_alert_api.py` lines 45-51).  Defaults: `notify_above=False`,
`notify_below=True`, optional `webhook_url` and `email`. -/
structure PriceAlert where
  product_name : String
  target_price : Rat
  notify_above : Bool := false
  notify_below : Bool := true
  webhook_url : Option String := none
  email : Option String := none
  deriving DecidableEq

/-- One element of the body of `POST /check-prices` (pydantic model
`ProductPrice`, lines 53-57). -/
structure ProductPrice where
  name : String
  current_price : Rat
  timestamp : Nat
  url : String
  deriving DecidableEq

/-- A row of the `price_alerts` table (schema created in `init_db`,
lines 77-89): SERIAL id, alert fields, `is_active` defaulting to TRUE and
a nullable `last_notification` timestamp. -/
structure AlertRow where
  id : Nat
  product_name : String
  target_price : Rat
  notify_above : Bool
  notify_below : Bool
  webhook_url : Option String
  email : Option String
  is_active : Bool
  last_notification : Option Nat
  deriving DecidableEq

/-- The database state: the rows of `price_alerts` in insertion order and
the next value of the SERIAL id sequence. -/
structure Store where
  rows : List AlertRow
  next_id : Nat
  deriving DecidableEq

/-- An entry of the `alerts_triggered` list built by `check_prices`
(lines 207-212): `alert_info = {alert_id, product_name, current_price,
target_price}`. -/
structure TriggeredEvent where
  alert_id : Nat
  product_name : String
  current_price : Rat
  target_price : Rat
  deriving DecidableEq

/-- `HTTPException(status_code, detail)` raised by the endpoints. -/
inductive ApiError where
  | http (status : Nat) (detail : String)
  deriving DecidableEq

def not_found_detail : String := "Alerte non trouvée"

/-- The SMTP transport underneath `EmailNotifier.send_email`: given
recipient, subject and message it either delivers or fails with some
transport error (connection, auth, ...). -/
def Transport : Type := String → String → String → Except String Unit

def connection_error : String := "connection refused"

/-- A transport that always fails, e.g. an unreachable mail server. -/
def offline_transport : Transport := fun _ _ _ => Except.error connection_error

/-- `EmailNotifier.send_email` (lines 25-43): attempts one delivery,
catches every transport exception and converts it to a boolean result
(`return True` / `return False`). -/
def send_email (transport : Transport) (recipient subject message : String) : Bool :=
  match transport recipient subject message with
  | Except.ok _ => true
  | Except.error _ => false

/-- The row inserted by `create_alert` (lines 110-122): the request fields
plus the schema defaults `is_active = TRUE`, `last_notification = NULL`. -/
def mkRow (id : Nat) (alert : PriceAlert) : AlertRow :=
  { id := id
    product_name := alert.product_name
    target_price := alert.target_price
    notify_above := alert.notify_above
    notify_below := alert.notify_below
    webhook_url := alert.webhook_url
    email := alert.email
    is_active := true
    last_notification := none }

def created_subject : String := "Nouvelle alerte de prix créée"

/-- Confirmation email body built in `create_alert` (lines 130-134). -/
def created_message (alert : PriceAlert) : String :=
  "Une nouvelle alerte de prix a été créée pour " ++ alert.product_name ++ "\n\n" ++
  "Prix cible: " ++ toString alert.target_price ++ "€\n" ++
  "Notification si prix " ++
  (if alert.notify_above then "supérieur" else "inférieur") ++ "\n"

/-- Result of `POST /alerts/`: the committed store, the returned
`alert_id`, and the boolean outcomes of the email deliveries attempted. -/
structure CreateResult where
  store : Store
  alert_id : Nat
  sends : List Bool
  deriving DecidableEq

/-- `create_alert` (lines 104-143): INSERTs the request unconditionally
(the pydantic model carries no constraint on `target_price` or
`product_name`), commits, then best-effort sends a confirmation email
when an address is present, and returns the new id. -/
def create_alert (transport : Transport) (store : Store) (alert : PriceAlert) :
    CreateResult :=
  let alert_id := store.next_id
  let committed : Store := ⟨store.rows ++ [mkRow alert_id alert], store.next_id + 1⟩
  let sends :=
    match alert.email with
    | some e => [send_email transport e created_subject (created_message alert)]
    | none => []
  ⟨committed, alert_id, sends⟩

/-- `get_alerts` (lines 145-155): `SELECT * FROM price_alerts WHERE
is_active = TRUE`, in insertion order. -/
def get_alerts (store : Store) : List AlertRow :=
  store.rows.filter (fun r => r.is_active)

def deactivated_subject : String := "Alerte de prix désactivée"

/-- Deactivation email body built in `delete_alert` (line 180). -/
def deactivated_message (a : AlertRow) : String :=
  "L\x27alerte de prix pour " ++ a.product_name ++ " a été désactivée."

/-- `delete_alert` (lines 157-185): fetch the row by id (`fetchone`, no
`is_active` filter); if absent raise `HTTPException(404)` before any
write; otherwise UPDATE `is_active = FALSE`, commit, and best-effort send
a deactivation email when the row has an address. -/
def delete_alert (transport : Transport) (store : Store) (alert_id : Nat) :
    Except ApiError (Store × List Bool) :=
  match store.rows.find? (fun r => decide (r.id = alert_id)) with
  | none => Except.error (ApiError.http 404 not_found_detail)
  | some alert =>
      let rows' := store.rows.map
        (fun r => if r.id = alert_id then { r with is_active := false } else r)
      let sends :=
        match alert.email with
        | some e =>
            [send_email transport e deactivated_subject (deactivated_message alert)]
        | none => []
      Except.ok (⟨rows', store.next_id⟩, sends)

/-- The database state after a `DELETE /alerts/{id}` request: a raised
`HTTPException` aborts before the UPDATE is committed, leaving the table
as it was. -/
def store_after_delete (transport : Transport) (store : Store) (alert_id : Nat) :
    Store :=
  match delete_alert transport store alert_id with
  | Except.ok (s, _) => s
  | Except.error _ => store

/-- The `should_notify` condition of `check_prices` (lines 202-205):
`(notify_above and current_price > target_price) or (notify_below and
current_price < target_price)`. -/
def should_notify (alert : AlertRow) (price : ProductPrice) : Bool :=
  (alert.notify_above && decide (price.current_price > alert.target_price)) ||
  (alert.notify_below && decide (price.current_price < alert.target_price))

/-- Subject of the trigger email (line 216). -/
def alert_subject (price : ProductPrice) : String :=
  "Alerte Prix - " ++ price.name

/-- Body of the trigger email built in `check_prices` (lines 217-223). -/
def alert_message (alert : AlertRow) (price : ProductPrice) : String :=
  "Le prix de " ++ price.name ++ " a changé!\n\n" ++
  "Prix actuel: " ++ toString price.current_price ++ "€\n" ++
  "Prix cible: " ++ toString alert.target_price ++ "€\n" ++
  "Type d\x27alerte: " ++
  (if alert.notify_above then "Prix supérieur" else "Prix inférieur") ++ "\n\n" ++
  "Voir le produit: " ++ price.url

/-- The UPDATE of lines 226-230: `SET last_notification = NOW() WHERE id =
%s`, applied to the table rows. -/
def update_last_notification (rows : List AlertRow) (alert_id now : Nat) :
    List AlertRow :=
  rows.map (fun r =>
    if r.id = alert_id then { r with last_notification := some now } else r)

/-- Accumulated state of the `check_prices` loop: the evolving store, the
`triggered_alerts` list, and the boolean outcomes of the email deliveries
attempted so far. -/
structure CheckResult where
  store : Store
  triggered_alerts : List TriggeredEvent
  sends : List Bool
  deriving DecidableEq

/-- Body of the inner loop of `check_prices` (lines 200-230) for one
(alert, price) pair: on a name match and a satisfied `should_notify`,
append the event, attempt the email when the alert has an address, and
UPDATE `last_notification`. -/
def process_price (transport : Transport) (now : Nat) (alert : AlertRow)
    (acc : CheckResult) (price : ProductPrice) : CheckResult :=
  if price.name = alert.product_name then
    if should_notify alert price then
      let ev : TriggeredEvent :=
        ⟨alert.id, price.name, price.current_price, alert.target_price⟩
      let sends' :=
        match alert.email with
        | some e =>
            acc.sends ++
              [send_email transport e (alert_subject price) (alert_message alert price)]
        | none => acc.sends
      ⟨⟨update_last_notification acc.store.rows alert.id now, acc.store.next_id⟩,
        acc.triggered_alerts ++ [ev], sends'⟩
    else acc
  else acc

/-- The inner `for price in prices` loop of `check_prices` for one alert. -/
def run_alert (transport : Transport) (now : Nat) (alert : AlertRow)
    (prices : List ProductPrice) (acc : CheckResult) : CheckResult :=
  prices.foldl (process_price transport now alert) acc

/-- The outer `for alert in alerts` loop of `check_prices`. -/
def run_alerts (transport : Transport) (now : Nat) (alerts : List AlertRow)
    (prices : List ProductPrice) (acc : CheckResult) : CheckResult :=
  alerts.foldl (fun acc alert => run_alert transport now alert prices acc) acc

/-- `check_prices` (lines 187-235): fetch the active alerts once, then the
nested loops over that snapshot and the submitted prices, starting from
the current store with empty `triggered_alerts`. -/
def check_prices (transport : Transport) (store : Store)
    (prices : List ProductPrice) (now : Nat) : CheckResult :=
  let alerts := store.rows.filter (fun r => r.is_active)
  run_alerts transport now alerts prices ⟨store, [], []⟩

/-- One (alert, price) pair matches by name and satisfies the firing
condition. -/
def matches_and_fires (alert : AlertRow) (price : ProductPrice) : Bool :=
  decide (price.name = alert.product_name) && should_notify alert price

/-- An alert fires on at least one observation of the batch. -/
def fired (prices : List ProductPrice) (alert : AlertRow) : Bool :=
  prices.any (matches_and_fires alert)

/-- The event list described by the spec (§4.2, §8): one `TriggeredEvent`
per firing (alert, observation) pair, alerts in the outer loop,
observations in the inner loop. -/
def evaluate_spec (alerts : List AlertRow) (prices : List ProductPrice) :
    List TriggeredEvent :=
  alerts.flatMap (fun a =>
    (prices.filter (matches_and_fires a)).map
      (fun p => ⟨a.id, p.name, p.current_price, a.target_price⟩))

/-- The delivery attempts produced by one alert for one firing price. -/
def sends_for (transport : Transport) (alert : AlertRow) (price : ProductPrice) :
    List Bool :=
  match alert.email with
  | some e => [send_email transport e (alert_subject price) (alert_message alert price)]
  | none => []

/-- All delivery attempts of a batch, in loop order. -/
def sends_spec (transport : Transport) (alerts : List AlertRow)
    (prices : List ProductPrice) : List Bool :=
  alerts.flatMap (fun a =>
    (prices.filter (matches_and_fires a)).flatMap (sends_for transport a))

/-- The cumulative effect of the `last_notification` UPDATEs of a batch:
a row is stamped with `now` exactly when some alert of the snapshot with
its id fired. -/
def apply_notifications (alerts : List AlertRow) (prices : List ProductPrice)
    (now : Nat) (rows : List AlertRow) : List AlertRow :=
  rows.map (fun r =>
    if alerts.any (fun a => fired prices a && decide (a.id = r.id)) then
      { r with last_notification := some now }
    else r)

/-- Forget the `webhook_url` field of a row; two stores "differ only in
webhook URLs" when erasing that field makes their row lists equal. -/
def erase_webhook (r : AlertRow) : AlertRow := { r with webhook_url := none }

/-! Concrete data used to instantiate the verified properties, taken from
the scenarios of spec §8. -/

/-- Spec §8 scenario: `alert{product_name="Widget", target_price=100,
notify_below=true}`, stored active with no email and no webhook. -/
def widget_alert : AlertRow :=
  ⟨1, "Widget", 100, false, true, none, none, true, none⟩

/-- Spec §8 scenario: `observation{name="Widget", current_price=90}`. -/
def widget_obs : ProductPrice :=
  ⟨"Widget", 90, 5, "http://example.com/widget"⟩

/-- Spec §8 scenario: a creation request with `target_price = -5`. -/
def invalid_request : PriceAlert := ⟨"Widget", -5, false, true, none, none⟩

/-- The Widget alert after deactivation. -/
def inactive_widget : AlertRow :=
  ⟨1, "Widget", 100, false, true, none, none, false, none⟩

/-- A second, deactivated alert with its own id. -/
def inactive_gadget : AlertRow :=
  ⟨2, "Gadget", 50, false, true, none, none, false, none⟩

/-- An observation matching the Gadget alert below its target. -/
def gadget_obs : ProductPrice := ⟨"Gadget", 5, 5, "http://example.com/gadget"⟩

/-- An observation for a product no stored alert watches. -/
def phone_obs : ProductPrice := ⟨"Phone", 10, 5, "http://example.com/phone"⟩

/-- The Widget alert with a webhook URL attached. -/
def widget_alert_hooked : AlertRow :=
  ⟨1, "Widget", 100, false, true, some "http://example.com/hook", none, true, none⟩

/-! ### Structural lemmas about the `check_prices` loops -/

theorem process_price_of_not_fires (t : Transport) (now : Nat) (a : AlertRow)
    (acc : CheckResult) (p : ProductPrice) (h : matches_and_fires a p = false) :
    process_price t now a acc p = acc := by
  unfold process_price
  unfold matches_and_fires at h
  by_cases hn : p.name = a.product_name
  · simp [hn] at h
    simp [hn, h]
  · simp [hn]

theorem process_price_of_fires (t : Transport) (now : Nat) (a : AlertRow)
    (acc : CheckResult) (p : ProductPrice) (h : matches_and_fires a p = true) :
    process_price t now a acc p =
      ⟨⟨update_last_notification acc.store.rows a.id now, acc.store.next_id⟩,
        acc.triggered_alerts ++ [⟨a.id, p.name, p.current_price, a.target_price⟩],
        acc.sends ++ sends_for t a p⟩ := by
  unfold matches_and_fires at h
  rw [Bool.and_eq_true, decide_eq_true_iff] at h
  unfold process_price
  rw [if_pos h.1, if_pos h.2]
  unfold sends_for
  cases a.email <;> simp

theorem update_last_notification_idem (rows : List AlertRow) (id now : Nat) :
    update_last_notification (update_last_notification rows id now) id now =
      update_last_notification rows id now := by
  unfold update_last_notification
  rw [List.map_map]
  apply List.map_congr_left
  intro r _
  by_cases h : r.id = id <;> simp [h]

theorem run_alert_cons (t : Transport) (now : Nat) (a : AlertRow)
    (p : ProductPrice) (ps : List ProductPrice) (acc : CheckResult) :
    run_alert t now a (p :: ps) acc = run_alert t now a ps (process_price t now a acc p) :=
  rfl

theorem run_alert_characterization (t : Transport) (now : Nat) (a : AlertRow)
    (prices : List ProductPrice) (acc : CheckResult) :
    run_alert t now a prices acc =
      ⟨⟨(if fired prices a then update_last_notification acc.store.rows a.id now
          else acc.store.rows), acc.store.next_id⟩,
        acc.triggered_alerts ++
          (prices.filter (matches_and_fires a)).map
            (fun p => ⟨a.id, p.name, p.current_price, a.target_price⟩),
        acc.sends ++ (prices.filter (matches_and_fires a)).flatMap (sends_for t a)⟩ := by
  induction prices generalizing acc with
  | nil => simp [run_alert, fired]
  | cons p ps ih =>
      rw [run_alert_cons]
      by_cases hp : matches_and_fires a p = true
      · rw [process_price_of_fires t now a acc p hp, ih]
        have hfired : fired (p :: ps) a = true := by
          unfold fired
          simp [List.any_cons, hp]
        by_cases hf : fired ps a = true
        · simp [hp, hfired, hf, update_last_notification_idem, List.filter_cons]
        · simp only [Bool.not_eq_true] at hf
          simp [hp, hfired, hf, List.filter_cons]
      · simp only [Bool.not_eq_true] at hp
        rw [process_price_of_not_fires t now a acc p hp, ih]
        have hfired : fired (p :: ps) a = fired ps a := by
          unfold fired
          simp [List.any_cons, hp]
        simp [hp, hfired, List.filter_cons]

theorem apply_notifications_nil (prices : List ProductPrice) (now : Nat)
    (rows : List AlertRow) : apply_notifications [] prices now rows = rows := by
  unfold apply_notifications
  simp

theorem apply_notifications_cons (a : AlertRow) (as : List AlertRow)
    (prices : List ProductPrice) (now : Nat) (rows : List AlertRow) :
    apply_notifications (a :: as) prices now rows =
      apply_notifications as prices now
        (if fired prices a then update_last_notification rows a.id now else rows) := by
  by_cases hf : fired prices a = true
  · rw [if_pos hf]
    unfold apply_notifications update_last_notification
    rw [List.map_map]
    apply List.map_congr_left
    intro r _
    by_cases hid : r.id = a.id
    · by_cases hrest : (as.any fun x => fired prices x && decide (x.id = r.id)) = true
      · rw [hid] at hrest
        simp [List.any_cons, hf, hid, hrest]
      · rw [Bool.not_eq_true] at hrest
        rw [hid] at hrest
        simp [List.any_cons, hf, hid, hrest]
    · have hid2 : ¬ a.id = r.id := fun h => hid h.symm
      simp [List.any_cons, hf, hid, hid2]
  · rw [Bool.not_eq_true] at hf
    rw [hf, if_neg Bool.false_ne_true]
    unfold apply_notifications
    apply List.map_congr_left
    intro r _
    simp [List.any_cons, hf]

theorem run_alerts_cons (t : Transport) (now : Nat) (a : AlertRow)
    (as : List AlertRow) (prices : List ProductPrice) (acc : CheckResult) :
    run_alerts t now (a :: as) prices acc =
      run_alerts t now as prices (run_alert t now a prices acc) :=
  rfl

theorem run_alerts_characterization (t : Transport) (now : Nat)
    (alerts : List AlertRow) (prices : List ProductPrice) (acc : CheckResult) :
    run_alerts t now alerts prices acc =
      ⟨⟨apply_notifications alerts prices now acc.store.rows, acc.store.next_id⟩,
        acc.triggered_alerts ++ evaluate_spec alerts prices,
        acc.sends ++ sends_spec t alerts prices⟩ := by
  induction alerts generalizing acc with
  | nil => simp [run_alerts, evaluate_spec, sends_spec, apply_notifications_nil]
  | cons a as ih =>
      rw [run_alerts_cons, run_alert_characterization, ih]
      rw [apply_notifications_cons]
      simp [evaluate_spec, sends_spec, List.flatMap_cons, List.append_assoc]

theorem check_prices_characterization (t : Transport) (store : Store)
    (prices : List ProductPrice) (now : Nat) :
    check_prices t store prices now =
      ⟨⟨apply_notifications (store.rows.filter (fun r => r.is_active)) prices now
          store.rows, store.next_id⟩,
        evaluate_spec (store.rows.filter (fun r => r.is_active)) prices,
        sends_spec t (store.rows.filter (fun r => r.is_active)) prices⟩ := by
  unfold check_prices
  rw [run_alerts_characterization]
  simp

/-! ### Helper lemmas -/

theorem should_notify_iff (a : AlertRow) (p : ProductPrice) :
    should_notify a p = true ↔
      ((a.notify_above = true ∧ p.current_price > a.target_price)
        ∨ (a.notify_below = true ∧ p.current_price < a.target_price)) := by
  unfold should_notify
  simp [Bool.or_eq_true, Bool.and_eq_true, decide_eq_true_iff]

theorem evaluate_spec_alert_id (alerts : List AlertRow) (prices : List ProductPrice)
    (ev : TriggeredEvent) (hev : ev ∈ evaluate_spec alerts prices) :
    ∃ x ∈ alerts, ev.alert_id = x.id := by
  unfold evaluate_spec at hev
  rw [List.mem_flatMap] at hev
  obtain ⟨x, hx, hev⟩ := hev
  rw [List.mem_map] at hev
  obtain ⟨p, _, rfl⟩ := hev
  exact ⟨x, hx, rfl⟩

/-! ### C1 -/

/-- C1: for a matching (alert, observation) pair, the `check_prices` loop
body emits a `TriggeredEvent` if and only if
`(notify_above ∧ current_price > target_price) ∨ (notify_below ∧
current_price < target_price)`; in particular at
`current_price = target_price` it emits nothing and leaves the
accumulated state untouched, regardless of the flags. -/
theorem C1_firing_condition (t : Transport) (now : Nat) (a : AlertRow)
    (p : ProductPrice) (acc : CheckResult) (hname : p.name = a.product_name) :
    ((process_price t now a acc p).triggered_alerts
        = acc.triggered_alerts ++ [⟨a.id, p.name, p.current_price, a.target_price⟩]
      ↔ ((a.notify_above = true ∧ p.current_price > a.target_price)
          ∨ (a.notify_below = true ∧ p.current_price < a.target_price)))
    ∧ (p.current_price = a.target_price → process_price t now a acc p = acc) := by
  have hm : matches_and_fires a p = should_notify a p := by
    unfold matches_and_fires
    simp [hname]
  constructor
  · by_cases hs : should_notify a p = true
    · rw [process_price_of_fires t now a acc p (by rw [hm, hs])]
      constructor
      · intro _
        exact (should_notify_iff a p).mp hs
      · intro _
        rfl
    · rw [Bool.not_eq_true] at hs
      rw [process_price_of_not_fires t now a acc p (by rw [hm, hs])]
      constructor
      · intro habs
        exact absurd habs (by simp)
      · intro hp
        have : should_notify a p = true := (should_notify_iff a p).mpr hp
        rw [hs] at this
        exact absurd this (by simp)
  · intro heq
    apply process_price_of_not_fires
    rw [hm]
    unfold should_notify
    rw [heq]
    simp

/-- Witness for C1 at the spec §8 scenario data, with the price sitting
exactly at the target. -/
theorem C1_firing_condition_witness :
    ((⟨"Widget", (100 : Rat), 5, "u"⟩ : ProductPrice).name = widget_alert.product_name)
    ∧ (((process_price offline_transport 7 widget_alert ⟨⟨[widget_alert], 2⟩, [], []⟩
            ⟨"Widget", (100 : Rat), 5, "u"⟩).triggered_alerts
          = (⟨⟨[widget_alert], 2⟩, [], []⟩ : CheckResult).triggered_alerts ++
              [⟨widget_alert.id, (⟨"Widget", (100 : Rat), 5, "u"⟩ : ProductPrice).name,
                (⟨"Widget", (100 : Rat), 5, "u"⟩ : ProductPrice).current_price,
                widget_alert.target_price⟩]
        ↔ ((widget_alert.notify_above = true
              ∧ (⟨"Widget", (100 : Rat), 5, "u"⟩ : ProductPrice).current_price
                  > widget_alert.target_price)
            ∨ (widget_alert.notify_below = true
              ∧ (⟨"Widget", (100 : Rat), 5, "u"⟩ : ProductPrice).current_price
                  < widget_alert.target_price)))
      ∧ ((⟨"Widget", (100 : Rat), 5, "u"⟩ : ProductPrice).current_price
            = widget_alert.target_price →
          process_price offline_transport 7 widget_alert ⟨⟨[widget_alert], 2⟩, [], []⟩
              ⟨"Widget", (100 : Rat), 5, "u"⟩
            = ⟨⟨[widget_alert], 2⟩, [], []⟩)) :=
  ⟨rfl, C1_firing_condition offline_transport 7 widget_alert
    ⟨"Widget", (100 : Rat), 5, "u"⟩ ⟨⟨[widget_alert], 2⟩, [], []⟩ rfl⟩

/-! ### C2 -/

/-- C2 counterexample: the claim says `create_alert` with
`target_price = -5` fails with a `ValidationError` and persists nothing;
in the code neither the pydantic model nor the endpoint checks
`target_price` or `product_name`, so the request succeeds and the row is
committed. -/
theorem C2_no_validation_counterexample :
    (create_alert offline_transport ⟨[], 1⟩ invalid_request).store.rows
      = [mkRow 1 invalid_request]
    ∧ (create_alert offline_transport ⟨[], 1⟩ invalid_request).alert_id = 1 :=
  ⟨rfl, rfl⟩

/-- C2 amended: `create_alert` performs no validation: every request,
including one with `target_price ≤ 0` or an empty `product_name`, is
persisted as a new row with `is_active = true` and
`last_notification = null`, and its fresh id is returned. -/
theorem C2_amended_no_validation (t : Transport) (store : Store)
    (alert : PriceAlert)
    (_h : alert.target_price ≤ 0 ∨ alert.product_name = "") :
    (create_alert t store alert).store.rows
      = store.rows ++ [mkRow store.next_id alert]
    ∧ (create_alert t store alert).alert_id = store.next_id
    ∧ (mkRow store.next_id alert).is_active = true
    ∧ (mkRow store.next_id alert).last_notification = none :=
  ⟨rfl, rfl, rfl, rfl⟩

/-- Witness for C2 amended at the `target_price = -5` request. -/
theorem C2_amended_no_validation_witness :
    (invalid_request.target_price ≤ 0 ∨ invalid_request.product_name = "")
    ∧ ((create_alert offline_transport ⟨[], 1⟩ invalid_request).store.rows
        = ([] : List AlertRow) ++ [mkRow (Store.mk [] 1).next_id invalid_request]
      ∧ (create_alert offline_transport ⟨[], 1⟩ invalid_request).alert_id
          = (Store.mk [] 1).next_id
      ∧ (mkRow (Store.mk [] 1).next_id invalid_request).is_active = true
      ∧ (mkRow (Store.mk [] 1).next_id invalid_request).last_notification = none) :=
  ⟨Or.inl (by decide),
    C2_amended_no_validation offline_transport ⟨[], 1⟩ invalid_request
      (Or.inl (by decide))⟩

/-! ### C3 -/

/-- C3 counterexample: the claim says deactivating an alert that is
already inactive fails with `NotFoundError`; the SELECT of `delete_alert`
has no `is_active` filter, so on a stored but deactivated alert the call
succeeds (and commits the idempotent UPDATE). -/
theorem C3_inactive_delete_counterexample :
    delete_alert offline_transport ⟨[inactive_widget], 2⟩ 1
      = Except.ok (⟨[inactive_widget], 2⟩, []) := rfl

/-- C3 amended: `delete_alert` fails, with `HTTPException 404`, exactly
when no stored row has the requested id; on any existing alert — active
or already deactivated — it succeeds. -/
theorem C3_amended_not_found_iff_absent (t : Transport) (store : Store)
    (alert_id : Nat) :
    ((delete_alert t store alert_id).isOk = true ↔ ∃ r ∈ store.rows, r.id = alert_id)
    ∧ ((delete_alert t store alert_id).isOk = false ↔
        delete_alert t store alert_id
          = Except.error (ApiError.http 404 not_found_detail)) := by
  unfold delete_alert
  cases hfind : store.rows.find? (fun r => decide (r.id = alert_id)) with
  | none =>
      rw [List.find?_eq_none] at hfind
      constructor
      · constructor
        · intro h
          simp [Except.isOk, Except.toBool] at h
        · intro ⟨r, hr, hid⟩
          have := hfind r hr
          simp [hid] at this
      · simp [Except.isOk, Except.toBool]
  | some a =>
      have hmem := List.mem_of_find?_eq_some hfind
      have hp := List.find?_some hfind
      rw [decide_eq_true_iff] at hp
      constructor
      · simp only [Except.isOk, Except.toBool]
        constructor
        · intro _
          exact ⟨a, hmem, hp⟩
        · intro _
          trivial
      · simp [Except.isOk, Except.toBool]

/-! ### C4 -/

/-- C4: `delete_alert` on an id absent from the store raises
`HTTPException 404` before any UPDATE, so the table after the request is
exactly the table before it. -/
theorem C4_delete_unknown_id (t : Transport) (store : Store) (alert_id : Nat)
    (h : ∀ r ∈ store.rows, r.id ≠ alert_id) :
    delete_alert t store alert_id
      = Except.error (ApiError.http 404 not_found_detail)
    ∧ store_after_delete t store alert_id = store := by
  have hfind : store.rows.find? (fun r => decide (r.id = alert_id)) = none := by
    rw [List.find?_eq_none]
    intro r hr
    simp [h r hr]
  constructor
  · unfold delete_alert
    rw [hfind]
  · unfold store_after_delete delete_alert
    rw [hfind]

/-- Witness for C4: a one-row store queried with an unknown id. -/
theorem C4_delete_unknown_id_witness :
    (∀ r ∈ (Store.mk [widget_alert] 2).rows, r.id ≠ 9)
    ∧ (delete_alert offline_transport ⟨[widget_alert], 2⟩ 9
        = Except.error (ApiError.http 404 not_found_detail)
      ∧ store_after_delete offline_transport ⟨[widget_alert], 2⟩ 9
          = ⟨[widget_alert], 2⟩) :=
  ⟨by decide, C4_delete_unknown_id offline_transport ⟨[widget_alert], 2⟩ 9 (by decide)⟩

/-! ### C5 -/

/-- C5: a deactivated alert is excluded from `get_alerts`, is never
matched by `check_prices` (none of the emitted events carries its id and
its row is returned untouched), and no operation flips `is_active` back
to true: `create_alert` only appends a fresh row, and the rows surviving
`check_prices` or a successful `delete_alert` are active only if they
were active before. -/
theorem C5_deactivated_excluded (t : Transport) (store : Store)
    (prices : List ProductPrice) (now : Nat) (alert : PriceAlert)
    (alert_id : Nat) (a : AlertRow) (ha : a ∈ store.rows)
    (hina : a.is_active = false)
    (hnodup : (store.rows.map AlertRow.id).Nodup) :
    a ∉ get_alerts store
    ∧ (∀ ev ∈ (check_prices t store prices now).triggered_alerts,
        ev.alert_id ≠ a.id)
    ∧ a ∈ (check_prices t store prices now).store.rows
    ∧ List.Forall₂ (fun r r2 => r2.is_active = true → r.is_active = true)
        store.rows (check_prices t store prices now).store.rows
    ∧ (create_alert t store alert).store.rows
        = store.rows ++ [mkRow store.next_id alert]
    ∧ (∀ s sends, delete_alert t store alert_id = Except.ok (s, sends) →
        List.Forall₂ (fun r r2 => r2.is_active = true → r.is_active = true)
          store.rows s.rows) := by
  have hinj := List.inj_on_of_nodup_map hnodup
  have hid_ne : ∀ x ∈ store.rows.filter (fun r => r.is_active), x.id ≠ a.id := by
    intro x hx hxa
    rw [List.mem_filter] at hx
    have : x = a := hinj hx.1 ha hxa
    rw [this] at hx
    rw [hina] at hx
    exact absurd hx.2 (by simp)
  refine ⟨?_, ?_, ?_, ?_, rfl, ?_⟩
  · intro hmem
    unfold get_alerts at hmem
    rw [List.mem_filter] at hmem
    rw [hina] at hmem
    exact absurd hmem.2 (by simp)
  · rw [check_prices_characterization]
    intro ev hev
    obtain ⟨x, hx, hevx⟩ := evaluate_spec_alert_id _ _ ev hev
    rw [hevx]
    exact hid_ne x hx
  · rw [check_prices_characterization]
    unfold apply_notifications
    rw [List.mem_map]
    refine ⟨a, ha, ?_⟩
    have hcond : ((store.rows.filter (fun r => r.is_active)).any
        (fun x => fired prices x && decide (x.id = a.id))) = false := by
      rw [List.any_eq_false]
      intro x hx
      simp [hid_ne x hx]
    rw [hcond]
    simp
  · rw [check_prices_characterization]
    unfold apply_notifications
    rw [List.forall₂_map_right_iff, List.forall₂_same]
    intro r _
    by_cases hc : ((store.rows.filter (fun x => x.is_active)).any
        (fun x => fired prices x && decide (x.id = r.id))) = true
    · rw [hc]
      simp
    · rw [Bool.not_eq_true] at hc
      rw [hc]
      simp
  · intro s sends heq
    unfold delete_alert at heq
    cases hfind : store.rows.find? (fun r => decide (r.id = alert_id)) with
    | none =>
        rw [hfind] at heq
        exact absurd heq (by simp)
    | some x =>
        rw [hfind] at heq
        rw [Except.ok.injEq, Prod.mk.injEq] at heq
        have hs : s.rows = store.rows.map
            (fun r => if r.id = alert_id then { r with is_active := false } else r) := by
          rw [← heq.1]
        rw [hs, List.forall₂_map_right_iff, List.forall₂_same]
        intro r _
        by_cases hr : r.id = alert_id
        · rw [if_pos hr]
          intro habs
          exact absurd habs (by simp)
        · rw [if_neg hr]
          exact id

/-- Witness for C5: a store holding the active Widget alert and the
deactivated Gadget alert, evaluated on an observation that would fire the
Gadget alert were it active. -/
theorem C5_deactivated_excluded_witness :
    inactive_gadget ∈ (Store.mk [widget_alert, inactive_gadget] 3).rows
    ∧ inactive_gadget.is_active = false
    ∧ ((Store.mk [widget_alert, inactive_gadget] 3).rows.map AlertRow.id).Nodup
    ∧ (inactive_gadget ∉ get_alerts ⟨[widget_alert, inactive_gadget], 3⟩
      ∧ (∀ ev ∈ (check_prices offline_transport ⟨[widget_alert, inactive_gadget], 3⟩
            [gadget_obs] 7).triggered_alerts, ev.alert_id ≠ inactive_gadget.id)
      ∧ inactive_gadget ∈ (check_prices offline_transport
            ⟨[widget_alert, inactive_gadget], 3⟩ [gadget_obs] 7).store.rows
      ∧ List.Forall₂ (fun r r2 => r2.is_active = true → r.is_active = true)
          (Store.mk [widget_alert, inactive_gadget] 3).rows
          (check_prices offline_transport ⟨[widget_alert, inactive_gadget], 3⟩
            [gadget_obs] 7).store.rows
      ∧ (create_alert offline_transport ⟨[widget_alert, inactive_gadget], 3⟩
            invalid_request).store.rows
          = (Store.mk [widget_alert, inactive_gadget] 3).rows ++
              [mkRow (Store.mk [widget_alert, inactive_gadget] 3).next_id invalid_request]
      ∧ (∀ s sends, delete_alert offline_transport
            ⟨[widget_alert, inactive_gadget], 3⟩ 1 = Except.ok (s, sends) →
          List.Forall₂ (fun r r2 => r2.is_active = true → r.is_active = true)
            (Store.mk [widget_alert, inactive_gadget] 3).rows s.rows)) :=
  ⟨by decide, by decide, by decide,
    C5_deactivated_excluded offline_transport ⟨[widget_alert, inactive_gadget], 3⟩
      [gadget_obs] 7 invalid_request 1 inactive_gadget (by decide) (by decide)
      (by decide)⟩

/-! ### C6 -/

/-- C6: when no submitted observation's name equals any active alert's
`product_name`, `check_prices` returns an empty `alerts_triggered` list,
attempts no delivery, and leaves the store — every field of every row —
exactly as it was. -/
theorem C6_no_match_no_effect (t : Transport) (store : Store)
    (prices : List ProductPrice) (now : Nat)
    (h : ∀ a ∈ store.rows, a.is_active = true →
      ∀ p ∈ prices, p.name ≠ a.product_name) :
    (check_prices t store prices now).triggered_alerts = []
    ∧ (check_prices t store prices now).store = store
    ∧ (check_prices t store prices now).sends = [] := by
  have hmf : ∀ a ∈ store.rows.filter (fun r => r.is_active), ∀ p ∈ prices,
      matches_and_fires a p = false := by
    intro a hamem p hp
    rw [List.mem_filter] at hamem
    unfold matches_and_fires
    have := h a hamem.1 hamem.2 p hp
    simp [this]
  have hfilter : ∀ a ∈ store.rows.filter (fun r => r.is_active),
      prices.filter (matches_and_fires a) = [] := by
    intro a hamem
    rw [List.filter_eq_nil_iff]
    intro p hp
    rw [hmf a hamem p hp]
    simp
  have hfired : ∀ a ∈ store.rows.filter (fun r => r.is_active),
      fired prices a = false := by
    intro a hamem
    unfold fired
    rw [List.any_eq_false]
    intro p hp
    rw [hmf a hamem p hp]
    simp
  rw [check_prices_characterization]
  refine ⟨?_, ?_, ?_⟩
  · unfold evaluate_spec
    rw [List.flatMap_eq_nil_iff]
    intro a hamem
    rw [hfilter a hamem]
    rfl
  · have : apply_notifications (store.rows.filter (fun r => r.is_active)) prices now
        store.rows = store.rows := by
      unfold apply_notifications
      have hnone : ∀ r ∈ store.rows,
          ((store.rows.filter (fun x => x.is_active)).any
            (fun a => fired prices a && decide (a.id = r.id))) = false := by
        intro r _
        rw [List.any_eq_false]
        intro a hamem
        rw [hfired a hamem]
        simp
      have hpt : ∀ r ∈ store.rows,
          (if ((store.rows.filter (fun x => x.is_active)).any
              (fun a => fired prices a && decide (a.id = r.id))) = true then
            { r with last_notification := some now } else r) = r := by
        intro r hr
        rw [hnone r hr]
        simp
      rw [List.map_congr_left hpt]
      exact List.map_id' store.rows
    rw [this]
  · unfold sends_spec
    rw [List.flatMap_eq_nil_iff]
    intro a hamem
    rw [hfilter a hamem]
    rfl

/-- Witness for C6: the Widget store evaluated on a Phone observation. -/
theorem C6_no_match_no_effect_witness :
    (∀ a ∈ (Store.mk [widget_alert] 2).rows, a.is_active = true →
      ∀ p ∈ [phone_obs], p.name ≠ a.product_name)
    ∧ ((check_prices offline_transport ⟨[widget_alert], 2⟩ [phone_obs] 7).triggered_alerts
        = []
      ∧ (check_prices offline_transport ⟨[widget_alert], 2⟩ [phone_obs] 7).store
          = ⟨[widget_alert], 2⟩
      ∧ (check_prices offline_transport ⟨[widget_alert], 2⟩ [phone_obs] 7).sends = []) :=
  ⟨by decide,
    C6_no_match_no_effect offline_transport ⟨[widget_alert], 2⟩ [phone_obs] 7
      (by decide)⟩

/-! ### C7 -/

/-- C7: `send_email` converts a failing transport into the boolean
result `false` rather than an error, and neither the `alerts_triggered`
list nor the state updates of `check_prices` depend on the transport at
all — a delivery failure can never suppress an event or block another
alert's update. -/
theorem C7_dispatch_failure_isolated (t1 t2 : Transport) (store : Store)
    (prices : List ProductPrice) (now : Nat)
    (recipient subject message err : String) :
    send_email (fun _ _ _ => Except.error err) recipient subject message = false
    ∧ (check_prices t1 store prices now).triggered_alerts
        = (check_prices t2 store prices now).triggered_alerts
    ∧ (check_prices t1 store prices now).store
        = (check_prices t2 store prices now).store := by
  refine ⟨rfl, ?_, ?_⟩
  · rw [check_prices_characterization, check_prices_characterization]
  · rw [check_prices_characterization, check_prices_characterization]

/-! ### C8 -/

/-- C8: the `alerts_triggered` list of `check_prices` is exactly one
event per firing (alert, observation) pair — `evaluate_spec` emits a
single element per pair even when both flag conditions hold, since the
condition is a single OR — ordered by the outer iteration over alerts
and the inner iteration over observations. -/
theorem C8_one_event_per_pair_in_order (t : Transport) (store : Store)
    (prices : List ProductPrice) (now : Nat) :
    (check_prices t store prices now).triggered_alerts
      = evaluate_spec (store.rows.filter (fun r => r.is_active)) prices := by
  rw [check_prices_characterization]

/-! ### C9 -/

theorem matches_and_fires_erase (a : AlertRow) :
    matches_and_fires (erase_webhook a) = matches_and_fires a := by
  funext p
  rfl

theorem erase_webhook_filter (l : List AlertRow) :
    (l.map erase_webhook).filter (fun r => r.is_active)
      = (l.filter (fun r => r.is_active)).map erase_webhook := by
  rw [List.filter_map]
  apply congrArg
  apply List.filter_congr
  intro r _
  rfl

theorem evaluate_spec_map_erase (alerts : List AlertRow)
    (prices : List ProductPrice) :
    evaluate_spec (alerts.map erase_webhook) prices = evaluate_spec alerts prices := by
  induction alerts with
  | nil => rfl
  | cons a as ih =>
      unfold evaluate_spec at ih ⊢
      rw [List.map_cons, List.flatMap_cons, List.flatMap_cons, ih,
        matches_and_fires_erase]
      rfl

theorem apply_notifications_map_erase (alerts : List AlertRow)
    (prices : List ProductPrice) (now : Nat) (rows : List AlertRow) :
    (apply_notifications alerts prices now rows).map erase_webhook
      = apply_notifications (alerts.map erase_webhook) prices now
          (rows.map erase_webhook) := by
  unfold apply_notifications
  rw [List.map_map, List.map_map]
  apply List.map_congr_left
  intro r _
  simp only [Function.comp_apply]
  have hany : ((alerts.map erase_webhook).any
      (fun a => fired prices a && decide (a.id = (erase_webhook r).id)))
      = (alerts.any (fun a => fired prices a && decide (a.id = r.id))) := by
    rw [List.any_map]
    rfl
  rw [hany]
  by_cases hc : (alerts.any (fun a => fired prices a && decide (a.id = r.id))) = true
  · rw [hc]
    rfl
  · rw [Bool.not_eq_true] at hc
    rw [hc]
    rfl

/-- C9: running `check_prices` over two stores whose rows agree on every
field except `webhook_url` yields the same `alerts_triggered` list and
the same state updates (the resulting rows again agree up to
`webhook_url`): the stored webhook URL is never read by the evaluation. -/
theorem C9_webhook_noninterference (t : Transport) (prices : List ProductPrice)
    (now : Nat) (s1 s2 : Store)
    (hrows : s1.rows.map erase_webhook = s2.rows.map erase_webhook) :
    (check_prices t s1 prices now).triggered_alerts
        = (check_prices t s2 prices now).triggered_alerts
    ∧ (check_prices t s1 prices now).store.rows.map erase_webhook
        = (check_prices t s2 prices now).store.rows.map erase_webhook := by
  have hfilter : (s1.rows.filter (fun r => r.is_active)).map erase_webhook
      = (s2.rows.filter (fun r => r.is_active)).map erase_webhook := by
    rw [← erase_webhook_filter, ← erase_webhook_filter, hrows]
  constructor
  · rw [check_prices_characterization, check_prices_characterization]
    dsimp only
    rw [← evaluate_spec_map_erase (s1.rows.filter (fun r => r.is_active)) prices,
      ← evaluate_spec_map_erase (s2.rows.filter (fun r => r.is_active)) prices,
      hfilter]
  · rw [check_prices_characterization, check_prices_characterization]
    dsimp only
    rw [apply_notifications_map_erase, apply_notifications_map_erase, hfilter, hrows]

/-- Witness for C9: the Widget store with and without a webhook URL,
evaluated on the firing Widget observation. -/
theorem C9_webhook_noninterference_witness :
    ((Store.mk [widget_alert_hooked] 2).rows.map erase_webhook
        = (Store.mk [widget_alert] 2).rows.map erase_webhook)
    ∧ ((check_prices offline_transport ⟨[widget_alert_hooked], 2⟩ [widget_obs] 7).triggered_alerts
        = (check_prices offline_transport ⟨[widget_alert], 2⟩ [widget_obs] 7).triggered_alerts
      ∧ (check_prices offline_transport ⟨[widget_alert_hooked], 2⟩ [widget_obs] 7).store.rows.map
            erase_webhook
          = (check_prices offline_transport ⟨[widget_alert], 2⟩ [widget_obs] 7).store.rows.map
              erase_webhook) :=
  ⟨by decide,
    C9_webhook_noninterference offline_transport [widget_obs] 7
      ⟨[widget_alert_hooked], 2⟩ ⟨[widget_alert], 2⟩ (by decide)⟩

/-! ### C10 -/

/-- C10: a firing alert gets its `last_notification` stamped even when it
has no email configured — the dispatch step contributes nothing for such
an alert but the UPDATE of lines 226-230 is outside the `if alert.email`
block and always runs. -/
theorem C10_notification_without_email (t : Transport) (store : Store)
    (prices : List ProductPrice) (now : Nat) (a : AlertRow)
    (ha : a ∈ store.rows) (hact : a.is_active = true)
    (hfired : fired prices a = true) (hmail : a.email = none) :
    { a with last_notification := some now }
        ∈ (check_prices t store prices now).store.rows
    ∧ (∀ p, sends_for t a p = []) := by
  constructor
  · rw [check_prices_characterization]
    unfold apply_notifications
    rw [List.mem_map]
    refine ⟨a, ha, ?_⟩
    have hmemA : a ∈ store.rows.filter (fun r => r.is_active) :=
      List.mem_filter.mpr ⟨ha, hact⟩
    have hcond : ((store.rows.filter (fun r => r.is_active)).any
        (fun x => fired prices x && decide (x.id = a.id))) = true :=
      List.any_eq_true.mpr ⟨a, hmemA, by rw [hfired]; simp⟩
    rw [hcond]
    simp
  · intro p
    unfold sends_for
    rw [hmail]

/-- Witness for C10: the email-less Widget alert fired by the Widget
observation at price 90. -/
theorem C10_notification_without_email_witness :
    widget_alert ∈ (Store.mk [widget_alert] 2).rows
    ∧ widget_alert.is_active = true
    ∧ fired [widget_obs] widget_alert = true
    ∧ widget_alert.email = none
    ∧ ({ widget_alert with last_notification := some 7 }
          ∈ (check_prices offline_transport ⟨[widget_alert], 2⟩ [widget_obs] 7).store.rows
      ∧ (∀ p, sends_for offline_transport widget_alert p = [])) :=
  ⟨by decide, by decide, by decide, by decide,
    C10_notification_without_email offline_transport ⟨[widget_alert], 2⟩
      [widget_obs] 7 widget_alert (by decide) (by decide) (by decide) (by decide)⟩

end PriceAlertApi
